import Mathlib

/-!
Verification of the quality-scoring engine in `src/scorer/quality_scorer.py`.

The Python module is embedded shallowly: strings are processed as `List Char`,
Python floats are modelled as exact rationals (`ℚ`), parsed JSON payloads are a
tagged union (`Json`), and the one fallible operation (format detection, whose
first code-signal regular expression is syntactically invalid and makes the
`re` module raise) is modelled with `Except`.
-/

namespace QualityScorer

/-! ## Python string primitives -/

/-- Python whitespace characters (`str.strip`, `str.split`, regex class). -/
def isPySpace (c : Char) : Bool :=
  c = ' ' || c = '\t' || c = '\n' || c = '\r' || c = '\x0b' || c = '\x0c'

/-- Python word character (regex class over ASCII input): letter, digit, `_`. -/
def isWordChar (c : Char) : Bool :=
  c.isAlpha || c.isDigit || c = '_'

/-- Python `str.strip()`: remove leading and trailing whitespace. -/
def pyStrip (s : List Char) : List Char :=
  ((s.dropWhile isPySpace).reverse.dropWhile isPySpace).reverse

/-- Split on every occurrence of a single separator character, keeping empty
pieces, as Python `str.split(sep)` does for a one-character separator. -/
def splitOnChar (p : Char → Bool) (s : List Char) : List (List Char) :=
  s.foldr
    (fun c acc =>
      if p c then [] :: acc
      else
        match acc with
        | w :: ws => (c :: w) :: ws
        | [] => [[c]])
    [[]]

/-- Helper for `pySplitSep`: fuel-indexed scan; the fuel is always at least the
length of the remaining text, so the `0` case is unreachable. -/
def pySplitSepAux (sep : List Char) : ℕ → List Char → List Char → List (List Char)
  | 0, acc, _ => [acc.reverse]
  | fuel + 1, acc, s =>
    match s with
    | [] => [acc.reverse]
    | c :: rest =>
      if sep.isPrefixOf (c :: rest) then
        acc.reverse :: pySplitSepAux sep fuel [] ((c :: rest).drop sep.length)
      else
        pySplitSepAux sep fuel (c :: acc) rest

/-- Python `str.split(sep)` for a non-empty separator: non-overlapping,
left-to-right, keeping empty pieces. -/
def pySplitSep (sep s : List Char) : List (List Char) :=
  pySplitSepAux sep (s.length + 1) [] s

/-- Python `str.split()` (no argument): split on whitespace runs, dropping
empty pieces. -/
def pySplitWs (s : List Char) : List (List Char) :=
  (splitOnChar isPySpace s).filter (fun w => w ≠ [])

/-- Python `needle in hay` for strings: substring containment. -/
def containsSub (needle hay : List Char) : Bool :=
  hay.tails.any (fun t => needle.isPrefixOf t)

/-- Helper for `countSub`: fuel-indexed non-overlapping scan. -/
def countSubAux (needle : List Char) : ℕ → List Char → ℕ
  | 0, _ => 0
  | fuel + 1, s =>
    match s with
    | [] => 0
    | c :: rest =>
      if needle.isPrefixOf (c :: rest) then
        1 + countSubAux needle fuel ((c :: rest).drop needle.length)
      else
        countSubAux needle fuel rest

/-- Number of non-overlapping occurrences of a non-empty literal substring,
scanning left to right (`str.count`, or `re.findall` on a literal pattern). -/
def countSub (needle s : List Char) : ℕ :=
  countSubAux needle (s.length + 1) s

/-- Python `str.find(sub)`: index of the first occurrence, or `none`. -/
def pyFind (needle s : List Char) : Option ℕ :=
  (List.range (s.length + 1)).find? (fun i => needle.isPrefixOf (s.drop i))

/-- Lowercase (ASCII) a character list, as `str.lower()` on ASCII input. -/
def pyLower (s : List Char) : List Char := s.map Char.toLower

/-- The suffixes of the text that begin just after a newline character.
Together with the whole text these are the positions where `^` matches in
`re.MULTILINE` mode. -/
def tailsAfterNewline : List Char → List (List Char)
  | [] => []
  | c :: rest =>
    if c = '\n' then rest :: tailsAfterNewline rest else tailsAfterNewline rest

/-- All line-start suffixes of the text (multiline `^` positions). -/
def lineStartSuffixes (s : List Char) : List (List Char) :=
  s :: tailsAfterNewline s

/-- The current line of a suffix: characters up to the next newline
(the region regex `.` can span without `re.DOTALL`). -/
def currentLine (s : List Char) : List Char := s.takeWhile (fun c => c ≠ '\n')

/-! ## Parsed JSON payloads

`json.loads` produces a Python value; the scorers only inspect its shape
(mappings, sequences, strings, scalars), so a tagged union suffices.  Numbers
keep their source lexeme: no scorer ever reads a numeric value. -/

inductive Json where
  | null : Json
  | bool (b : Bool) : Json
  | num (raw : List Char) : Json
  | str (s : List Char) : Json
  | arr (items : List Json) : Json
  | obj (fields : List (List Char × Json)) : Json
deriving Repr

/-- Python `dict` insertion: replace the value of an existing key in place
(duplicate keys in a JSON text: the last value wins, key count unchanged),
otherwise append. -/
def objInsert (fields : List (List Char × Json)) (k : List Char) (v : Json) :
    List (List Char × Json) :=
  match fields with
  | [] => [(k, v)]
  | (k0, v0) :: rest =>
    if k0 = k then (k0, v) :: rest else (k0, v0) :: objInsert rest k v

/-- Python `f in data` for a parsed mapping: key membership. -/
def objHasKey (fields : List (List Char × Json)) (k : List Char) : Bool :=
  fields.any (fun p => p.1 = k)

/-! ## `json.loads`, modelled

A recursive-descent parser for the JSON grammar, used by the format detector
and by four of the five scorers.  Simplifications against the CPython `json` module
(none of which is exercised by any theorem below): `\u` escapes are rejected,
and number lexemes are not checked for leading zeros. -/

/-- JSON whitespace accepted between tokens by `json.loads`. -/
def isJsonWs (c : Char) : Bool :=
  c = ' ' || c = '\t' || c = '\n' || c = '\r'

def skipJsonWs (s : List Char) : List Char := s.dropWhile isJsonWs

/-- Decode one string-literal escape character. -/
def unescape (c : Char) : Option Char :=
  if c = '"' then some '"'
  else if c = '\\' then some '\\'
  else if c = '/' then some '/'
  else if c = 'n' then some '\n'
  else if c = 't' then some '\t'
  else if c = 'r' then some '\r'
  else if c = 'b' then some '\x08'
  else if c = 'f' then some '\x0c'
  else none

/-- Parse the body of a string literal after the opening quote; returns the
decoded characters and the remainder after the closing quote. -/
def parseStringBody : List Char → Option (List Char × List Char)
  | [] => none
  | c :: rest =>
    if c = '"' then some ([], rest)
    else if c = '\\' then
      match rest with
      | [] => none
      | e :: rest2 =>
        match unescape e with
        | none => none
        | some d =>
          match parseStringBody rest2 with
          | none => none
          | some (s, r) => some (d :: s, r)
    else
      match parseStringBody rest with
      | none => none
      | some (s, r) => some (c :: s, r)

/-- Parse a number lexeme: optional minus, digits, optional fraction,
optional exponent.  Returns the lexeme and the remainder. -/
def parseNumber (s : List Char) : Option (List Char × List Char) :=
  let (neg, s1) :=
    match s with
    | '-' :: rest => (['-'], rest)
    | _ => (([] : List Char), s)
  let intPart := s1.takeWhile Char.isDigit
  let s2 := s1.dropWhile Char.isDigit
  if intPart = [] then none
  else
    let (fracPart, s3) :=
      match s2 with
      | '.' :: rest =>
        let ds := rest.takeWhile Char.isDigit
        if ds = [] then (([] : List Char), s2)
        else ('.' :: ds, rest.dropWhile Char.isDigit)
      | _ => (([] : List Char), s2)
    let (expPart, s4) :=
      match s3 with
      | c :: rest =>
        if c = 'e' || c = 'E' then
          let (sgn, rest1) :=
            match rest with
            | '+' :: r => (['+'], r)
            | '-' :: r => (['-'], r)
            | _ => (([] : List Char), rest)
          let ds := rest1.takeWhile Char.isDigit
          if ds = [] then (([] : List Char), s3)
          else (c :: (sgn ++ ds), rest1.dropWhile Char.isDigit)
        else (([] : List Char), s3)
      | [] => (([] : List Char), s3)
    some (neg ++ intPart ++ fracPart ++ expPart, s4)

mutual

/-- Parse one JSON value (fuel-indexed; every recursive call follows the
consumption of at least one character, so fuel `length + 2` never runs out). -/
def parseValue : ℕ → List Char → Option (Json × List Char)
  | 0, _ => none
  | fuel + 1, s =>
    let s := skipJsonWs s
    match s with
    | [] => none
    | c :: rest =>
      if c = '{' then parseObjFields fuel rest []
      else if c = '[' then parseArrItems fuel rest []
      else if c = '"' then
        match parseStringBody rest with
        | none => none
        | some (str, r) => some (.str str, r)
      else if ['n', 'u', 'l', 'l'].isPrefixOf s then some (.null, s.drop 4)
      else if ['t', 'r', 'u', 'e'].isPrefixOf s then some (.bool true, s.drop 4)
      else if ['f', 'a', 'l', 's', 'e'].isPrefixOf s then some (.bool false, s.drop 5)
      else
        match parseNumber s with
        | none => none
        | some (raw, r) => some (.num raw, r)

/-- Parse the members of an object after `{` (or after a comma). -/
def parseObjFields (fuel : ℕ) (s : List Char) (acc : List (List Char × Json)) :
    Option (Json × List Char) :=
  match fuel with
  | 0 => none
  | fuel + 1 =>
    let s := skipJsonWs s
    match s with
    | [] => none
    | c :: rest =>
      if c = '}' then
        if acc.isEmpty then some (.obj [], rest) else none
      else if c = '"' then
        match parseStringBody rest with
        | none => none
        | some (key, r1) =>
          let r1 := skipJsonWs r1
          match r1 with
          | ':' :: r2 =>
            match parseValue fuel r2 with
            | none => none
            | some (v, r3) =>
              let acc := objInsert acc key v
              let r3 := skipJsonWs r3
              match r3 with
              | ',' :: r4 => parseObjFields fuel r4 acc
              | '}' :: r4 => some (.obj acc, r4)
              | _ => none
          | _ => none
      else none

/-- Parse the items of an array after `[` (or after a comma). -/
def parseArrItems (fuel : ℕ) (s : List Char) (acc : List Json) :
    Option (Json × List Char) :=
  match fuel with
  | 0 => none
  | fuel + 1 =>
    let s := skipJsonWs s
    match s with
    | [] => none
    | c :: rest =>
      if c = ']' then
        if acc.isEmpty then some (.arr [], rest) else none
      else
        match parseValue fuel s with
        | none => none
        | some (v, r1) =>
          let acc := acc ++ [v]
          let r1 := skipJsonWs r1
          match r1 with
          | ',' :: r2 => parseArrItems fuel r2 acc
          | ']' :: r2 => some (.arr acc, r2)
          | _ => none

end

/-- Python `json.loads(content)`: parse one JSON document with nothing but
whitespace around it; `none` models `json.JSONDecodeError`. -/
def json_loads (content : String) : Option Json :=
  let cs := content.data
  match parseValue (cs.length + 2) cs with
  | none => none
  | some (v, rest) => if skipJsonWs rest = [] then some v else none

/-! ## Format detection (`detect_format`, lines 66-103)

`FormatType` is the enumeration from the source; `value` gives the
serialized string of each member. -/

inductive FormatType where
  | JSON : FormatType
  | MARKDOWN : FormatType
  | CODE : FormatType
  | TEXT : FormatType
deriving DecidableEq, Repr

def FormatType.value : FormatType → String
  | .JSON => "json"
  | .MARKDOWN => "markdown"
  | .CODE => "code"
  | .TEXT => "text"

/-- Errors raised by the `re` module while scoring.  The only occurrence: the
first entry of `code_patterns` reads
`^\s*(def |class |function |import |from |#include |package |func ` and never
closes its group, so compiling it raises
`re.error: missing ), unterminated subpattern`. -/
inductive RegexError where
  | unterminatedSubpattern : RegexError
deriving DecidableEq, Repr

/-- First code pattern of `detect_format` (line 80).  The pattern text is
syntactically invalid (unterminated group), so `re.match` raises instead of
returning a match result. -/
def code_pattern_1 (_content : List Char) : Except RegexError Bool :=
  .error .unterminatedSubpattern

/-- Second code pattern,
`^\s*(public |private |protected |void |int |string |var |let |const )`,
under `re.match` with `re.IGNORECASE` on already-stripped content: a prefix
test against the keyword alternatives. -/
def code_pattern_2 (content : List Char) : Bool :=
  ["public ", "private ", "protected ", "void ", "int ", "string ", "var ",
    "let ", "const "].any
    (fun kw => kw.data.isPrefixOf (pyLower content))

/-- Third code pattern, `^\s*<\?php`. -/
def code_pattern_3 (content : List Char) : Bool :=
  "<?php".data.isPrefixOf (pyLower content)

/-- Fourth code pattern, `^\s*<(!DOCTYPE |html|head|body)`. -/
def code_pattern_4 (content : List Char) : Bool :=
  ["<!doctype ", "<html", "<head", "<body"].any
    (fun kw => kw.data.isPrefixOf (pyLower content))

/-- Fifth code pattern, `^\s*(import|export)\s+`: one of the keywords at the
start, followed by at least one whitespace character. -/
def code_pattern_5 (content : List Char) : Bool :=
  ["import", "export"].any (fun kw =>
    kw.data.isPrefixOf (pyLower content) &&
      match (pyLower content).drop kw.length with
      | c :: _ => isPySpace c
      | [] => false)

/-- Markdown pattern `^#{1,6}\s+` at one multiline `^` position: a run of one
to six `#` followed by a whitespace character (which may be the newline). -/
def md_header_at (s : List Char) : Bool :=
  let run := (s.takeWhile (fun c => c = '#')).length
  1 ≤ run && run ≤ 6 &&
    match s.drop run with
    | c :: _ => isPySpace c
    | [] => false

/-- Markdown pattern `^\*\*.*\*\*` at one position: leading `**` and a second
`**` later on the same line (`.` does not cross newlines). -/
def md_bold_at (s : List Char) : Bool :=
  "**".data.isPrefixOf s && containsSub "**".data (currentLine (s.drop 2))

/-- Markdown pattern `^\[.*\]\(.*\)` at one position: `[`, then `](` later on
the line, then `)` after that. -/
def md_link_at (s : List Char) : Bool :=
  match s with
  | '[' :: rest =>
    (currentLine rest).tails.any (fun t =>
      "](".data.isPrefixOf t && (t.drop 2).contains ')')
  | _ => false

/-- Markdown pattern: a fenced-code-block delimiter (three backticks) at the
position. -/
def md_codeblock_at (s : List Char) : Bool :=
  "```".data.isPrefixOf s

/-- Markdown pattern `^[-*+]\s+`. -/
def md_bullet_at (s : List Char) : Bool :=
  match s with
  | c :: d :: _ => (c = '-' || c = '*' || c = '+') && isPySpace d
  | _ => false

/-- Markdown pattern `^\d+\.\s+`. -/
def md_numbered_at (s : List Char) : Bool :=
  let run := (s.takeWhile Char.isDigit).length
  1 ≤ run &&
    match s.drop run with
    | '.' :: c :: _ => isPySpace c
    | _ => false

/-- Python `re.search(p, content, re.MULTILINE)` for each of the six patterns of
`md_patterns`: a match at some line start. -/
def md_pattern_matches (p : List Char → Bool) (content : List Char) : Bool :=
  (lineStartSuffixes content).any p

/-- Embedding of `detect_format` (lines 66-103).  JSON detection succeeds or falls
through; the code-pattern loop then compiles the first (malformed) pattern and
raises.  The remaining steps are embedded for completeness but are
unreachable. -/
def detect_format (content0 : String) : Except RegexError FormatType :=
  let content := pyStrip content0.data
  if (("\x7b".data.isPrefixOf content || "[".data.isPrefixOf content) &&
      (json_loads (String.mk content)).isSome) then
    .ok .JSON
  else
    match code_pattern_1 content with
    | .error e => .error e
    | .ok m1 =>
      if m1 then .ok .CODE
      else if code_pattern_2 content then .ok .CODE
      else if code_pattern_3 content then .ok .CODE
      else if code_pattern_4 content then .ok .CODE
      else if code_pattern_5 content then .ok .CODE
      else
        let md_count :=
          ([md_header_at, md_bold_at, md_link_at, md_codeblock_at,
            md_bullet_at, md_numbered_at].filter
            (fun p => md_pattern_matches p content)).length
        if 2 ≤ md_count then .ok .MARKDOWN
        else .ok .TEXT

/-! ## Python `round` and shared scorer helpers -/

/-- Python `round()` to an integer: round half to even. -/
def round_half_to_even (q : ℚ) : ℤ :=
  let f := ⌊q⌋
  if q - f < 1 / 2 then f
  else if 1 / 2 < q - f then f + 1
  else if f % 2 = 0 then f else f + 1

/-- Python `round(x, 3)` on the exact rational model of the score. -/
def pyRound3 (q : ℚ) : ℚ := (round_half_to_even (q * 1000) : ℚ) / 1000

/-- Placeholder for `str(e)[:50]`, the truncated `json.JSONDecodeError`
message interpolated into two feedback strings; its text plays no role in any
scored quantity. -/
def json_error_message (_content : String) : String := ""

/-- Python `"; ".join(feedback) if feedback else allClear` — the common return shape
of every scorer. -/
def joinFeedback (fb : List String) (allClear : String) : String :=
  if fb.isEmpty then allClear else String.intercalate "; " fb

/-- Python `str()` of a list of strings (used in one feedback message):
elements quoted with single quotes, comma-separated, in brackets. -/
def pyReprStrList (xs : List String) : String :=
  let q := String.mk [Char.ofNat 39]
  "[" ++ String.intercalate ", " (xs.map (fun s => q ++ s ++ q)) ++ "]"

/-- Count of maximal runs of characters satisfying `p`
(`len(re.split([cs]+, content))` is this plus one). -/
def countRunsAux (p : Char → Bool) : List Char → Bool → ℕ
  | [], _ => 0
  | c :: rest, inRun =>
    if p c then (if inRun then 0 else 1) + countRunsAux p rest true
    else countRunsAux p rest false

def countRuns (p : Char → Bool) (s : List Char) : ℕ := countRunsAux p s false

/-- Sentence-ending characters `[.!?]`. -/
def isSentEnd (c : Char) : Bool := c = '.' || c = '!' || c = '?'

/-- Python `len(re.findall([.!?]\s+[A-Z], content))`: non-overlapping
punctuation / whitespace-run / uppercase triples, scanned left to right. -/
def properEndingsAux : ℕ → List Char → ℕ
  | 0, _ => 0
  | _ + 1, [] => 0
  | fuel + 1, c :: rest =>
    if isSentEnd c then
      let ws := rest.takeWhile isPySpace
      let after := rest.dropWhile isPySpace
      match after with
      | d :: rest2 =>
        if ws ≠ [] && d.isUpper then 1 + properEndingsAux fuel rest2
        else properEndingsAux fuel rest
      | [] => properEndingsAux fuel rest
    else properEndingsAux fuel rest

def properEndingsCount (s : List Char) : ℕ := properEndingsAux (s.length + 1) s

/-- Maximal word-character runs of the text (the candidate spans for
whole-word `\b...\b` regex matches over ASCII input). -/
def wordTokens (s : List Char) : List (List Char) :=
  (splitOnChar (fun c => !(isWordChar c)) s).filter (fun w => w ≠ [])

/-- Python `len(re.findall(\b[A-Z]{2,}\b, content))`: whole-word tokens that are
two or more uppercase letters. -/
def abbreviationCount (s : List Char) : ℕ :=
  ((wordTokens s).filter (fun t => 2 ≤ t.length && t.all Char.isUpper)).length

/-- Python `re.search(\b(teh|adn|taht|wiht)\b, lowered)`: a whole-word common
misspelling. -/
def hasTypo (lowered : List Char) : Bool :=
  (wordTokens lowered).any (fun t =>
    t = "teh".data || t = "adn".data || t = "taht".data || t = "wiht".data)

/-- Count of immediately-adjacent equal pairs in a word list
(`words[i] == words[i+1]`). -/
def adjacentDupCount : List (List Char) → ℕ
  | [] => 0
  | [_] => 0
  | a :: b :: rest => (if a = b then 1 else 0) + adjacentDupCount (b :: rest)

/-- Python `len(re.findall(pat1|pat2|..., content))` for literal alternatives:
ordered alternation, non-overlapping, scanned left to right. -/
def findallAltCountAux (pats : List (List Char)) : ℕ → List Char → ℕ
  | 0, _ => 0
  | _ + 1, [] => 0
  | fuel + 1, c :: rest =>
    match pats.find? (fun p => p.isPrefixOf (c :: rest)) with
    | some p => 1 + findallAltCountAux pats fuel ((c :: rest).drop p.length)
    | none => findallAltCountAux pats fuel rest

def findallAltCount (pats : List (List Char)) (s : List Char) : ℕ :=
  findallAltCountAux pats (s.length + 1) s

/-- Python `len(re.findall(\b(var|let|const|int|string|float)\s+\w+, content))`:
a keyword at a word boundary, whitespace, then a word; each match consumes
through its trailing word run. -/
def variableDeclsAux : ℕ → Bool → List Char → ℕ
  | 0, _, _ => 0
  | _ + 1, _, [] => 0
  | fuel + 1, prevWord, c :: rest =>
    let s := c :: rest
    let kwHit :=
      if prevWord then none
      else
        ["var", "let", "const", "int", "string", "float"].find? (fun kw =>
          kw.data.isPrefixOf s &&
            (let after := s.drop kw.length
             let ws := after.takeWhile isPySpace
             let w := after.dropWhile isPySpace
             ws ≠ [] &&
               match w with
               | d :: _ => isWordChar d
               | [] => false))
    match kwHit with
    | some kw =>
      let after := s.drop kw.length
      let w := after.dropWhile isPySpace
      let run := w.takeWhile isWordChar
      1 + variableDeclsAux fuel true (w.drop run.length)
    | none => variableDeclsAux fuel (isWordChar c) rest

def variableDeclsCount (s : List Char) : ℕ :=
  variableDeclsAux (s.length + 1) false s

/-- Python `re.findall(import\s+(\w+), content)`: the captured name after each
(non-overlapping) `import` + whitespace occurrence. -/
def importedNamesAux : ℕ → List Char → List (List Char)
  | 0, _ => []
  | _ + 1, [] => []
  | fuel + 1, c :: rest =>
    let s := c :: rest
    if "import".data.isPrefixOf s then
      let after := s.drop 6
      let ws := after.takeWhile isPySpace
      let w := after.dropWhile isPySpace
      let run := w.takeWhile isWordChar
      if ws ≠ [] && run ≠ [] then run :: importedNamesAux fuel (w.drop run.length)
      else importedNamesAux fuel rest
    else importedNamesAux fuel rest

def importedNames (s : List Char) : List (List Char) :=
  importedNamesAux (s.length + 1) s

/-- The first five imported names that do not occur again after their first
occurrence (`imp not in content[content.find(imp) + len(imp):]`). -/
def unusedImports (content : List Char) : List (List Char) :=
  ((importedNames content).take 5).filter (fun imp =>
    match pyFind imp content with
    | some i => !(containsSub imp (content.drop (i + imp.length)))
    | none => false)

/-- Python `re.search(\{\s*\}, content)`: an opening brace, optional whitespace,
a closing brace. -/
def hasEmptyBlock (s : List Char) : Bool :=
  s.tails.any (fun t =>
    match t with
    | '\x7b' :: r =>
      match r.dropWhile isPySpace with
      | '\x7d' :: _ => true
      | _ => false
    | _ => false)

/-- One markup-compliance issue pattern, `^#{1,6}[^\s#]` at a line start: a
run of one to six `#` followed by a character that is neither whitespace nor
`#`. -/
def md_header_nospace_at (s : List Char) : Bool :=
  let run := (s.takeWhile (fun c => c = '#')).length
  1 ≤ run && run ≤ 6 &&
    match s.drop run with
    | c :: _ => !(isPySpace c) && c ≠ '#'
    | [] => false

/-- Python `re.findall(\[([^\]]*)\]\(\s*\), content)` non-emptiness: an
empty-target inline link anywhere in the text. -/
def hasEmptyLink (s : List Char) : Bool :=
  s.tails.any (fun t =>
    match t with
    | '[' :: r =>
      let inner := r.takeWhile (fun c => c ≠ ']')
      match r.drop inner.length with
      | ']' :: '(' :: r2 =>
        (match r2.dropWhile isPySpace with
         | ')' :: _ => true
         | _ => false)
      | _ => false
    | _ => false)

/-- Python `re.search(\]\([^)]*$, content, re.MULTILINE)`: a `](` with no closing
parenthesis before some following end of line. -/
def mdBrokenLinkSearch (s : List Char) : Bool :=
  s.tails.any (fun t =>
    "](".data.isPrefixOf t &&
      (let after := t.drop 2
       let upto := after.takeWhile (fun c => c ≠ ')')
       upto.contains '\n' || (after.drop upto.length).isEmpty))

/-- Python `re.search(\[.*\]\(.*\), content)` (unanchored): a link pattern
starting at any position; `md_link_at` is the same pattern body. -/
def linkSearch (s : List Char) : Bool := s.tails.any md_link_at

/-- Python `len(re.findall(^\s*(#|//|/\*|\*/), content, re.MULTILINE))`, modelled
per line: a line whose leading whitespace is followed by a comment marker. -/
def comment_line_count (s : List Char) : ℕ :=
  ((lineStartSuffixes s).filter (fun t =>
    let u := t.dropWhile isPySpace
    ["#", "//", "/*", "*/"].any (fun m => m.data.isPrefixOf u))).length

/-- Count of link-pattern matches for the coverage scorer
(`len(re.findall(\[.*\]\(.*\), content))`, modelled as link starts with the
greedy match consuming the rest of the line). -/
def linkCountAux : ℕ → List Char → ℕ
  | 0, _ => 0
  | _ + 1, [] => 0
  | fuel + 1, c :: rest =>
    if md_link_at (c :: rest) then
      1 + linkCountAux fuel ((c :: rest).dropWhile (fun ch => ch ≠ '\n'))
    else linkCountAux fuel rest

def linkCount (s : List Char) : ℕ := linkCountAux (s.length + 1) s

/-- Count of image-pattern matches
(`len(re.findall(!\[.*\]\(.*\), content))`, modelled like `linkCount`). -/
def imageCountAux : ℕ → List Char → ℕ
  | 0, _ => 0
  | _ + 1, [] => 0
  | fuel + 1, c :: rest =>
    if c = '!' && md_link_at rest then
      1 + imageCountAux fuel (rest.dropWhile (fun ch => ch ≠ '\n'))
    else imageCountAux fuel rest

def imageCount (s : List Char) : ℕ := imageCountAux (s.length + 1) s

/-- Count of multiline `^#{1,6}\s+` matches
(`sections` in the coverage scorer), one per matching line start. -/
def sectionCount (s : List Char) : ℕ :=
  ((lineStartSuffixes s).filter md_header_at).length

/-! ## Shared recursive helpers over parsed payloads -/

mutual

/-- Embedding of `get_dict_depth` (lines 336-340): maximum depth of a nested mapping;
a non-mapping or empty mapping returns the current depth, a non-empty mapping
the maximum over its values at depth + 1. -/
def get_dict_depth : Json → ℕ → ℕ
  | .obj [], depth => depth
  | .obj (kv :: kvs), depth => get_dict_depth_values (kv :: kvs) depth
  | _, depth => depth

/-- Python `max(get_dict_depth(v, depth + 1) for v in d.values())` over a non-empty
value list. -/
def get_dict_depth_values : List (List Char × Json) → ℕ → ℕ
  | [], _ => 0
  | [(_, v)], depth => get_dict_depth v (depth + 1)
  | (_, v) :: kv :: kvs, depth =>
    max (get_dict_depth v (depth + 1)) (get_dict_depth_values (kv :: kvs) depth)

end

/-- Python `v is None or v == "" or v == []` — the test applied to mapping values in
`count_nulls` (an empty mapping does not satisfy it: `{} == []` is false). -/
def isNullEmptyObjValue : Json → Bool
  | .null => true
  | .str [] => true
  | .arr [] => true
  | _ => false

/-- Python `item is None or item == "" or item == {}` — the test applied to sequence
items in `count_nulls` (an empty sequence does not satisfy it). -/
def isNullEmptyArrItem : Json → Bool
  | .null => true
  | .str [] => true
  | .obj [] => true
  | _ => false

/-- Python `isinstance(v, (dict, list))`. -/
def isContainer : Json → Bool
  | .obj _ => true
  | .arr _ => true
  | _ => false

mutual

/-- Embedding of `count_nulls` (lines 474-491): recursive count of null/empty values.
In a mapping, a value counts when it is `None`, `""` or `[]` (an empty mapping
is instead recursed into); in a sequence, an item counts when it is `None`,
`""` or `{}` (an empty sequence is instead recursed into). -/
def count_nulls : Json → ℕ
  | .null => 1
  | .obj kvs => count_nulls_obj kvs
  | .arr items => count_nulls_arr items
  | _ => 0

def count_nulls_obj : List (List Char × Json) → ℕ
  | [] => 0
  | (_, v) :: rest =>
    (if isNullEmptyObjValue v then 1
     else if isContainer v then count_nulls v else 0) + count_nulls_obj rest

def count_nulls_arr : List Json → ℕ
  | [] => 0
  | item :: rest =>
    (if isNullEmptyArrItem item then 1
     else if isContainer item then count_nulls item else 0) + count_nulls_arr rest

end

/-! ## The five dimension scorers -/

/-- Embedding of `score_completeness` (lines 106-178, weight 0.30). -/
def score_completeness (content : String) (format_type : FormatType) : ℚ × String :=
  let cs := content.data
  match format_type with
  | .JSON =>
    match json_loads content with
    | some (.obj fields) =>
      let required_fields : List String := ["id", "name", "data", "value", "type"]
      let found := (required_fields.filter (fun f => objHasKey fields f.data)).length
      let score : ℚ := (found : ℚ) / (required_fields.length : ℚ)
      let missing := required_fields.filter (fun f => !(objHasKey fields f.data))
      let fb := if score < 1 then ["Missing common fields: " ++ pyReprStrList (missing.take 3)] else []
      (pyRound3 score, joinFeedback fb "Complete")
    | some (.arr items) =>
      let score : ℚ := if 0 < items.length then 1 else 0
      let fb := if items.length = 0 then ["Empty array"] else []
      (pyRound3 score, joinFeedback fb "Complete")
    | some _ => (pyRound3 (1 / 2), joinFeedback ["JSON structure is minimal"] "Complete")
    | none => (pyRound3 0, joinFeedback ["Invalid JSON structure"] "Complete")
  | .MARKDOWN =>
    let header := md_pattern_matches md_header_at cs
    let paragraph := 0 < countSub "\n\n".data cs
    let list_el := md_pattern_matches md_bullet_at cs
    let link := linkSearch cs
    let code := containsSub "```".data cs
    let elements : List (String × Bool) :=
      [("header", header), ("paragraph", paragraph), ("list", list_el),
        ("link", link), ("code", code)]
    let score : ℚ := ((elements.filter (fun e => e.2)).length : ℚ) / (elements.length : ℚ)
    let missing := (elements.filter (fun e => !e.2)).map Prod.fst
    let fb := if missing ≠ [] then
        ["Consider adding: " ++ String.intercalate ", " (missing.take 3)] else []
    (pyRound3 score, joinFeedback fb "Complete")
  | .CODE =>
    let structure_ok := 5 < (splitOnChar (fun c => c = '\n') cs).length
    let functions := containsSub "def ".data cs || containsSub "function ".data cs ||
      containsSub "func ".data cs
    let comments := containsSub "#".data cs || containsSub "//".data cs ||
      containsSub "/*".data cs || containsSub "*/".data cs
    let returns := containsSub "return".data cs || containsSub "yield".data cs
    let checks : List (String × Bool) :=
      [("structure", structure_ok), ("functions", functions),
        ("comments", comments), ("returns", returns)]
    let score : ℚ := ((checks.filter (fun e => e.2)).length : ℚ) / (checks.length : ℚ)
    let missing := (checks.filter (fun e => !e.2)).map Prod.fst
    let fb := if missing ≠ [] then
        ["Consider adding: " ++ String.intercalate ", " (missing.take 3)] else []
    (pyRound3 score, joinFeedback fb "Complete")
  | .TEXT =>
    let words := (pySplitWs cs).length
    let sentences := countRuns isSentEnd cs + 1
    let paragraphs := (pySplitSep "\n\n".data cs).length
    let word_score : ℚ := min 1 ((words : ℚ) / 100)
    let sentence_score : ℚ := min 1 ((sentences : ℚ) / 5)
    let paragraph_score : ℚ := min 1 ((paragraphs : ℚ) / 2)
    let score := (word_score + sentence_score + paragraph_score) / 3
    let fb := if words < 50 then ["Content seems brief, consider expanding"] else []
    (pyRound3 score, joinFeedback fb "Complete")

/-- Embedding of `score_format_compliance` (lines 181-266, weight 0.20). -/
def score_format_compliance (content : String) (format_type : FormatType) : ℚ × String :=
  let cs := content.data
  match format_type with
  | .JSON =>
    match json_loads content with
    | some _ =>
      let bad := containsSub "\n".data cs && !("\x7b\n".data.isPrefixOf cs)
      let score : ℚ := if bad then 1 - 0.1 else 1
      let fb := if bad then ["Consider using consistent formatting"] else []
      (pyRound3 (max 0 score), joinFeedback fb "Format compliant")
    | none =>
      (pyRound3 (max 0 0), joinFeedback
        ["JSON parse error: " ++ json_error_message content] "Format compliant")
  | .MARKDOWN =>
    let headers := md_pattern_matches md_header_nospace_at cs
    let score1 : ℚ := if headers then 1 - 0.2 else 1
    let code_blocks := countSub "```".data cs
    let score2 := if code_blocks % 2 ≠ 0 then score1 - 0.3 else score1
    let broken := hasEmptyLink cs
    let score3 := if broken then score2 - 0.1 else score2
    let fb :=
      (if headers then ["Headers need space after #"] else []) ++
      (if code_blocks % 2 ≠ 0 then ["Unclosed code block"] else []) ++
      (if broken then ["Empty links found"] else [])
    (pyRound3 (max 0 score3), joinFeedback fb "Format compliant")
  | .CODE =>
    let lines := splitOnChar (fun c => c = '\n') cs
    let spaces := lines.any (fun l => "    ".data.isPrefixOf l)
    let tabs := lines.any (fun l => "\t".data.isPrefixOf l)
    let mixed := spaces && tabs
    let score1 : ℚ := if mixed then 1 - 0.2 else 1
    let trailing := (lines.filter (fun l => l ≠ [] && l.getLast? = some ' ')).length
    let manyTrailing := (lines.length : ℚ) * 0.1 < (trailing : ℚ)
    let score2 := if manyTrailing then score1 - 0.1 else score1
    let fb :=
      (if mixed then ["Mixed tabs and spaces"] else []) ++
      (if manyTrailing then ["Trailing whitespace detected"] else [])
    (pyRound3 (max 0 score2), joinFeedback fb "Format compliant")
  | .TEXT =>
    let doubles := containsSub "  ".data cs
    let score1 : ℚ := if doubles then 1 - 0.1 else 1
    let sentences := (cs.filter isSentEnd).length + 1
    let improper := 1 < sentences &&
      (properEndingsCount cs : ℚ) < (sentences : ℚ) * 0.5
    let score2 := if improper then score1 - 0.1 else score1
    let fb :=
      (if doubles then ["Multiple consecutive spaces"] else []) ++
      (if improper then ["Inconsistent sentence endings"] else [])
    (pyRound3 (max 0 score2), joinFeedback fb "Format compliant")

/-- Embedding of `score_coverage` (lines 269-333, weight 0.25). -/
def score_coverage (content : String) (format_type : FormatType) : ℚ × String :=
  let cs := content.data
  let word_count := (pySplitWs cs).length
  match format_type with
  | .JSON =>
    match json_loads content with
    | some (.obj fields) =>
      let key_count := fields.length
      let depth := get_dict_depth (.obj fields) 0
      let score : ℚ := min 1 ((key_count : ℚ) / 10 + (depth : ℚ) / 5) / 2
      (pyRound3 score, joinFeedback [] "Good coverage")
    | some (.arr items) =>
      (pyRound3 (min 1 ((items.length : ℚ) / 10)), joinFeedback [] "Good coverage")
    | some _ => (pyRound3 (1 / 2), joinFeedback [] "Good coverage")
    | none => (pyRound3 0, joinFeedback [] "Good coverage")
  | .CODE =>
    let functions := findallAltCount ["def ".data, "function ".data, "func ".data] cs
    let classes := countSub "class ".data cs
    let var_decls := variableDeclsCount cs
    let total : ℚ := (functions : ℚ) + (classes : ℚ) * 2 + (var_decls : ℚ) / 5
    let score := min 1 (total / 10)
    let fb := if functions = 0 && classes = 0 then ["No functions or classes found"] else []
    (pyRound3 score, joinFeedback fb "Good coverage")
  | .MARKDOWN =>
    let sections := sectionCount cs
    let links := linkCount cs
    let images := imageCount cs
    let code_blocks := countSub "```".data cs / 2
    let total : ℚ := (sections : ℚ) + (links : ℚ) / 2 + (images : ℚ) + (code_blocks : ℚ)
    let score := min 1 (total / 8)
    (pyRound3 score, joinFeedback [] "Good coverage")
  | .TEXT =>
    let words := pySplitWs (pyLower cs)
    let unique_words := words.dedup.length
    let diversity : ℚ := (unique_words : ℚ) / max 1 (words.length : ℚ)
    let length_score : ℚ := min 1 ((word_count : ℚ) / 200)
    let score := (diversity + length_score) / 2
    let fb := if diversity < 0.3 then ["Low vocabulary diversity"] else []
    (pyRound3 score, joinFeedback fb "Good coverage")

/-- Embedding of `score_clarity` (lines 343-388, weight 0.15). -/
def score_clarity (content : String) (format_type : FormatType) : ℚ × String :=
  let cs := content.data
  let lines := splitOnChar (fun c => c = '\n') cs
  let avg_line_len : ℚ := ((lines.map List.length).sum : ℚ) / max 1 (lines.length : ℚ)
  let longLines := 100 < avg_line_len
  let score1 : ℚ := if longLines then 1 - 0.2 else 1
  let blank_lines := (lines.filter (fun l => pyStrip l = [])).length
  let fewBlank := (blank_lines : ℚ) < (lines.length : ℚ) * 0.1
  let score2 := if fewBlank then score1 - 0.1 else score1
  let paragraphs := pySplitSep "\n\n".data cs
  let long_paras := (paragraphs.filter (fun p => 100 < (pySplitWs p).length)).length
  let score3 := if 0 < long_paras then score2 - 0.1 * (long_paras : ℚ) else score2
  let total_lines := (lines.filter (fun l => pyStrip l ≠ [])).length
  let fewComments := format_type = FormatType.CODE && 10 < total_lines &&
    (comment_line_count cs : ℚ) < (total_lines : ℚ) * 0.1
  let score4 := if fewComments then score3 - 0.2 else score3
  let manyAbbrev := 10 < abbreviationCount cs
  let fb :=
    (if longLines then ["Long lines reduce readability"] else []) ++
    (if fewBlank then ["Add more paragraph breaks"] else []) ++
    (if 0 < long_paras then ["Break up long paragraphs"] else []) ++
    (if fewComments then ["Add more code comments"] else []) ++
    (if manyAbbrev then ["Many abbreviations - consider defining them"] else [])
  (pyRound3 (max 0 score4), joinFeedback fb "Clear and readable")

/-- Embedding of `score_validity` (lines 391-471, weight 0.10). -/
def score_validity (content : String) (format_type : FormatType) : ℚ × String :=
  let cs := content.data
  match format_type with
  | .JSON =>
    match json_loads content with
    | some data =>
      let null_count := count_nulls data
      let score : ℚ := if 0 < null_count then 1 - 0.1 * (min null_count 5 : ℕ) else 1
      let fb := if 0 < null_count then
          ["Found " ++ toString null_count ++ " null/empty values"] else []
      (pyRound3 (max 0 score), joinFeedback fb "Valid")
    | none =>
      (pyRound3 (max 0 0), joinFeedback
        ["Invalid JSON: " ++ json_error_message content] "Valid")
  | .CODE =>
    let open_brackets := cs.count '(' + cs.count '[' + cs.count '\x7b'
    let close_brackets := cs.count ')' + cs.count ']' + cs.count '\x7d'
    let mismatched := open_brackets ≠ close_brackets
    let score1 : ℚ := if mismatched then 1 - 0.3 else 1
    let empty_blocks := hasEmptyBlock cs
    let score2 := if empty_blocks then score1 - 0.1 else score1
    let unused := unusedImports cs
    let score3 := score2 - 0.05 * (unused.length : ℚ)
    let fb :=
      (if mismatched then ["Mismatched brackets"] else []) ++
      (if empty_blocks then ["Empty code blocks"] else []) ++
      unused.map (fun imp => "Potentially unused: " ++ String.mk imp)
    (pyRound3 (max 0 score3), joinFeedback fb "Valid")
  | .MARKDOWN =>
    let asterisks := countSub "**".data cs
    let unclosedBold := asterisks % 2 ≠ 0
    let score1 : ℚ := if unclosedBold then 1 - 0.2 else 1
    let broken := mdBrokenLinkSearch cs
    let score2 := if broken then score1 - 0.2 else score1
    let fb :=
      (if unclosedBold then ["Unclosed bold formatting"] else []) ++
      (if broken then ["Broken link syntax"] else [])
    (pyRound3 (max 0 score2), joinFeedback fb "Valid")
  | .TEXT =>
    let words := pySplitWs (pyLower cs)
    let repeated := adjacentDupCount words
    let manyRepeats := 2 < repeated
    let score1 : ℚ := if manyRepeats then 1 - 0.1 else 1
    let typo := hasTypo (pyLower cs)
    let score2 := if typo then score1 - 0.1 else score1
    let fb :=
      (if manyRepeats then ["Repeated words found"] else []) ++
      (if typo then ["Possible typos detected"] else [])
    (pyRound3 (max 0 score2), joinFeedback fb "Valid")

/-! ## Aggregation (`score_submission`, lines 494-559) -/

/-- Embedding of `DIMENSION_WEIGHTS` (lines 44-50). -/
def DIMENSION_WEIGHTS : List (String × ℚ) :=
  [("completeness", 0.30), ("format_compliance", 0.20), ("coverage", 0.25),
    ("clarity", 0.15), ("validity", 0.10)]

/-- Embedding of `QUALITY_RATINGS` (lines 53-60): thresholds in descending order. -/
def QUALITY_RATINGS : List (ℚ × String) :=
  [(0.9, "Excellent"), (0.8, "Very Good"), (0.7, "Good"),
    (0.6, "Satisfactory"), (0.5, "Needs Improvement"), (0.0, "Poor")]

def DEFAULT_PASS_THRESHOLD : ℚ := 0.6

/-- The scan inside `get_quality_rating`: first entry whose threshold the
score reaches; `"Poor"` if the loop falls through. -/
def ratingScan : List (ℚ × String) → ℚ → String
  | [], _ => "Poor"
  | (threshold, rating) :: rest, score =>
    if threshold ≤ score then rating else ratingScan rest score

/-- Embedding of `get_quality_rating` (lines 494-499). -/
def get_quality_rating (score : ℚ) : String := ratingScan QUALITY_RATINGS score

/-- Embedding of `ScoringResult` (lines 32-40).  `scores` keeps the dimension insertion
order of the Python dict. -/
structure ScoringResult where
  weighted_score : ℚ
  quality_rating : String
  scores : List (String × ℚ)
  feedback : List String
  pass_threshold : Bool
  format_detected : String
deriving DecidableEq, Repr

/-- The feedback filter of the aggregation loop (lines 535-537): keep a feedback
string unless it is empty or one of the five all-clear markers. -/
def keepFeedback (fb : String) : Bool :=
  fb ≠ "" && fb ≠ "Complete" && fb ≠ "Format compliant" &&
    fb ≠ "Good coverage" && fb ≠ "Clear and readable" && fb ≠ "Valid"

/-- The body of `score_submission` after format detection (lines 519-551):
run the five scorers, combine with the fixed weights, derive rating and
verdict. -/
def aggregate_result (content : String) (format_type : FormatType)
    (pass_threshold : ℚ) : ScoringResult :=
  let comp := score_completeness content format_type
  let fmtc := score_format_compliance content format_type
  let cov := score_coverage content format_type
  let clar := score_clarity content format_type
  let val := score_validity content format_type
  let scores := [("completeness", comp.1), ("format_compliance", fmtc.1),
    ("coverage", cov.1), ("clarity", clar.1), ("validity", val.1)]
  let feedback_list :=
    (if keepFeedback comp.2 then ["completeness: " ++ comp.2] else []) ++
    (if keepFeedback fmtc.2 then ["format_compliance: " ++ fmtc.2] else []) ++
    (if keepFeedback cov.2 then ["coverage: " ++ cov.2] else []) ++
    (if keepFeedback clar.2 then ["clarity: " ++ clar.2] else []) ++
    (if keepFeedback val.2 then ["validity: " ++ val.2] else [])
  let weighted_sum :=
    comp.1 * 0.30 + fmtc.1 * 0.20 + cov.1 * 0.25 + clar.1 * 0.15 + val.1 * 0.10
  let weighted_score := pyRound3 weighted_sum
  { weighted_score := weighted_score
    quality_rating := get_quality_rating weighted_score
    scores := scores
    feedback := if feedback_list.isEmpty then ["All dimensions satisfactory"] else feedback_list
    pass_threshold := decide (pass_threshold ≤ weighted_score)
    format_detected := format_type.value }

/-- Embedding of `score_submission` (lines 502-551): detect the format once, then score;
the regex error raised inside `detect_format` propagates. -/
def score_submission (content : String) (pass_threshold : ℚ) :
    Except RegexError ScoringResult :=
  match detect_format content with
  | .error e => .error e
  | .ok format_type => .ok (aggregate_result content format_type pass_threshold)

/-- Embedding of `score_batch` (lines 554-559): the list comprehension
`[score_submission(s, pass_threshold) for s in submissions]`; an exception
raised on any item aborts the whole batch. -/
def score_batch (submissions : List String) (pass_threshold : ℚ) :
    Except RegexError (List ScoringResult) :=
  submissions.mapM (fun s => score_submission s pass_threshold)

/-! ## Range lemmas -/

/-- The function `round_half_to_even` never rounds above an integer upper bound. -/
theorem round_half_to_even_le {q : ℚ} {n : ℤ} (h : q ≤ (n : ℚ)) :
    round_half_to_even q ≤ n := by
  have hf : ⌊q⌋ ≤ n := by
    have h2 := Int.floor_le_floor h
    rwa [Int.floor_intCast] at h2
  have hfl : (⌊q⌋ : ℚ) ≤ q := Int.floor_le q
  simp only [round_half_to_even]
  split_ifs with h1 h2 h3
  · exact hf
  all_goals
    rcases eq_or_lt_of_le hf with heq | hlt
    · exfalso
      apply h1
      have hq : q - (⌊q⌋ : ℚ) ≤ 0 := by
        rw [heq]
        exact sub_nonpos.mpr h
      linarith
    · omega

/-- The function `round_half_to_even` never rounds below an integer lower bound. -/
theorem le_round_half_to_even {q : ℚ} {n : ℤ} (h : (n : ℚ) ≤ q) :
    n ≤ round_half_to_even q := by
  have hf : n ≤ ⌊q⌋ := Int.le_floor.mpr h
  simp only [round_half_to_even]
  split_ifs <;> omega

/-- Python `round(x, 3)` preserves an upper bound that is a multiple of 1/1000. -/
theorem pyRound3_le {q : ℚ} {n : ℤ} (h : q ≤ (n : ℚ) / 1000) :
    pyRound3 q ≤ (n : ℚ) / 1000 := by
  unfold pyRound3
  have h1 : q * 1000 ≤ (n : ℚ) := by linarith
  have h2 := round_half_to_even_le h1
  have h3 : ((round_half_to_even (q * 1000) : ℤ) : ℚ) ≤ (n : ℚ) := by exact_mod_cast h2
  linarith

/-- Python `round(x, 3)` preserves a lower bound that is a multiple of 1/1000. -/
theorem le_pyRound3 {q : ℚ} {n : ℤ} (h : (n : ℚ) / 1000 ≤ q) :
    (n : ℚ) / 1000 ≤ pyRound3 q := by
  unfold pyRound3
  have h1 : (n : ℚ) ≤ q * 1000 := by linarith
  have h2 := le_round_half_to_even h1
  have h3 : (n : ℚ) ≤ ((round_half_to_even (q * 1000) : ℤ) : ℚ) := by exact_mod_cast h2
  linarith

/-- Scores in the unit interval. -/
def inUnit (q : ℚ) : Prop := 0 ≤ q ∧ q ≤ 1

theorem pyRound3_unit {q : ℚ} (h : inUnit q) : inUnit (pyRound3 q) := by
  constructor
  · have h0 : ((0 : ℤ) : ℚ) / 1000 ≤ q := by push_cast; linarith [h.1]
    have := le_pyRound3 h0
    push_cast at this
    linarith
  · have h1 : q ≤ ((1000 : ℤ) : ℚ) / 1000 := by push_cast; linarith [h.2]
    have := pyRound3_le h1
    push_cast at this
    linarith

theorem min1_unit {x : ℚ} (hx : 0 ≤ x) : inUnit (min 1 x) :=
  ⟨le_min (by norm_num) hx, min_le_left _ _⟩

theorem max0_unit {s : ℚ} (h : s ≤ 1) : inUnit (max 0 s) :=
  ⟨le_max_left _ _, max_le (by norm_num) h⟩

/-- A count over at most `b` things, divided by `b`. -/
theorem ratio_unit {a b : ℕ} (hab : a ≤ b) (hb : 0 < b) : inUnit ((a : ℚ) / (b : ℚ)) := by
  constructor
  · positivity
  · rw [div_le_one (by exact_mod_cast hb)]
    exact_mod_cast hab

/-- The completeness score lies in [0, 1] for every content and format. -/
theorem score_completeness_unit (content : String) (fmt : FormatType) :
    inUnit (score_completeness content fmt).1 := by
  rcases fmt with _ | _ | _ | _
  · rcases hj : json_loads content with _ | v
    · simp only [score_completeness, hj]
      exact pyRound3_unit ⟨le_refl 0, by norm_num⟩
    · rcases v with _ | b | raw | s | items | fields <;>
        simp only [score_completeness, hj] <;> apply pyRound3_unit
      · exact ⟨by norm_num, by norm_num⟩
      · exact ⟨by norm_num, by norm_num⟩
      · exact ⟨by norm_num, by norm_num⟩
      · exact ⟨by norm_num, by norm_num⟩
      · split_ifs <;> exact ⟨by norm_num, by norm_num⟩
      · exact ratio_unit (List.length_filter_le _ _) (by simp)
  · simp only [score_completeness]
    exact pyRound3_unit (ratio_unit (List.length_filter_le _ _) (by simp))
  · simp only [score_completeness]
    exact pyRound3_unit (ratio_unit (List.length_filter_le _ _) (by simp))
  · simp only [score_completeness]
    apply pyRound3_unit
    constructor
    · have h1 : (0 : ℚ) ≤ min 1 (((pySplitWs content.data).length : ℚ) / 100) :=
        le_min (by norm_num) (by positivity)
      have h2 : (0 : ℚ) ≤ min 1 (((countRuns isSentEnd content.data + 1 : ℕ) : ℚ) / 5) :=
        le_min (by norm_num) (by positivity)
      have h3 : (0 : ℚ) ≤ min 1 (((pySplitSep "\n\n".data content.data).length : ℚ) / 2) :=
        le_min (by norm_num) (by positivity)
      linarith
    · have h1 := min_le_left 1 (((pySplitWs content.data).length : ℚ) / 100)
      have h2 := min_le_left 1 (((countRuns isSentEnd content.data + 1 : ℕ) : ℚ) / 5)
      have h3 := min_le_left 1 (((pySplitSep "\n\n".data content.data).length : ℚ) / 2)
      linarith

/-- The format-compliance score lies in [0, 1] for every content and format. -/
theorem score_format_compliance_unit (content : String) (fmt : FormatType) :
    inUnit (score_format_compliance content fmt).1 := by
  rcases fmt with _ | _ | _ | _
  · rcases hj : json_loads content with _ | v <;>
      simp only [score_format_compliance, hj] <;> apply pyRound3_unit <;> apply max0_unit
    · norm_num
    · split_ifs <;> norm_num
  · simp only [score_format_compliance]
    apply pyRound3_unit
    apply max0_unit
    split_ifs <;> norm_num
  · simp only [score_format_compliance]
    apply pyRound3_unit
    apply max0_unit
    split_ifs <;> norm_num
  · simp only [score_format_compliance]
    apply pyRound3_unit
    apply max0_unit
    split_ifs <;> norm_num

/-- The coverage score lies in [0, 1] for every content and format. -/
theorem score_coverage_unit (content : String) (fmt : FormatType) :
    inUnit (score_coverage content fmt).1 := by
  rcases fmt with _ | _ | _ | _
  · rcases hj : json_loads content with _ | v
    · simp only [score_coverage, hj]
      exact pyRound3_unit ⟨le_refl 0, by norm_num⟩
    · rcases v with _ | b | raw | s | items | fields <;>
        simp only [score_coverage, hj] <;> apply pyRound3_unit
      · exact ⟨by norm_num, by norm_num⟩
      · exact ⟨by norm_num, by norm_num⟩
      · exact ⟨by norm_num, by norm_num⟩
      · exact ⟨by norm_num, by norm_num⟩
      · exact min1_unit (by positivity)
      · have hmin : inUnit (min 1 ((fields.length : ℚ) / 10 +
            (get_dict_depth (Json.obj fields) 0 : ℚ) / 5)) :=
          min1_unit (by positivity)
        exact ⟨by linarith [hmin.1], by linarith [hmin.2]⟩
  · simp only [score_coverage]
    exact pyRound3_unit (min1_unit (by positivity))
  · simp only [score_coverage]
    exact pyRound3_unit (min1_unit (by positivity))
  · simp only [score_coverage]
    apply pyRound3_unit
    have hmaxpos : (0 : ℚ) < max 1 ((pySplitWs (pyLower content.data)).length : ℚ) :=
      lt_of_lt_of_le one_pos (le_max_left _ _)
    have hdu : ((pySplitWs (pyLower content.data)).dedup.length : ℚ) /
        max 1 ((pySplitWs (pyLower content.data)).length : ℚ) ≤ 1 := by
      rw [div_le_one hmaxpos]
      calc ((pySplitWs (pyLower content.data)).dedup.length : ℚ)
          ≤ ((pySplitWs (pyLower content.data)).length : ℚ) := by
            exact_mod_cast (List.dedup_sublist _).length_le
        _ ≤ max 1 ((pySplitWs (pyLower content.data)).length : ℚ) := le_max_right _ _
    have hdu0 : (0 : ℚ) ≤ ((pySplitWs (pyLower content.data)).dedup.length : ℚ) /
        max 1 ((pySplitWs (pyLower content.data)).length : ℚ) :=
      div_nonneg (by positivity) (le_of_lt hmaxpos)
    have hls : inUnit (min 1 (((pySplitWs content.data).length : ℚ) / 200)) :=
      min1_unit (by positivity)
    exact ⟨by linarith [hls.1], by linarith [hls.2]⟩

/-- The clarity score lies in [0, 1] for every content and format. -/
theorem score_clarity_unit (content : String) (fmt : FormatType) :
    inUnit (score_clarity content fmt).1 := by
  simp only [score_clarity]
  apply pyRound3_unit
  apply max0_unit
  have hlp : (0 : ℚ) ≤ 0.1 * (((pySplitSep "\n\n".data content.data).filter
      (fun p => 100 < (pySplitWs p).length)).length : ℚ) := by positivity
  split_ifs <;> linarith

/-- The validity score lies in [0, 1] for every content and format. -/
theorem score_validity_unit (content : String) (fmt : FormatType) :
    inUnit (score_validity content fmt).1 := by
  rcases fmt with _ | _ | _ | _
  · rcases hj : json_loads content with _ | v <;>
      simp only [score_validity, hj] <;> apply pyRound3_unit <;> apply max0_unit
    · norm_num
    · split_ifs with h
      · have hc : (0 : ℚ) ≤ ((min (count_nulls v) 5 : ℕ) : ℚ) := by positivity
        linarith
      · norm_num
  · simp only [score_validity]
    apply pyRound3_unit
    apply max0_unit
    split_ifs <;> norm_num
  · simp only [score_validity]
    apply pyRound3_unit
    apply max0_unit
    have hu : (0 : ℚ) ≤ 0.05 * ((unusedImports content.data).length : ℚ) := by positivity
    split_ifs <;> linarith
  · simp only [score_validity]
    apply pyRound3_unit
    apply max0_unit
    split_ifs <;> norm_num

/-- The rounded weighted sum of the five scores lies in [0, 1]. -/
theorem aggregate_weighted_unit (content : String) (fmt : FormatType) (th : ℚ) :
    inUnit (aggregate_result content fmt th).weighted_score := by
  obtain ⟨h1a, h1b⟩ := score_completeness_unit content fmt
  obtain ⟨h2a, h2b⟩ := score_format_compliance_unit content fmt
  obtain ⟨h3a, h3b⟩ := score_coverage_unit content fmt
  obtain ⟨h4a, h4b⟩ := score_clarity_unit content fmt
  obtain ⟨h5a, h5b⟩ := score_validity_unit content fmt
  simp only [aggregate_result]
  apply pyRound3_unit
  constructor <;> nlinarith

/-- The weighted score of every successful scoring call lies in [0, 1]
(a call on which format detection raises produces no score at all). -/
def weightedScoreInUnit : Except RegexError ScoringResult → Prop
  | .error _ => True
  | .ok r => inUnit r.weighted_score

/-! ## Spec-side definitions used for refinement comparisons -/

/-- Modelled from the spec (§4.4): for a Structured mapping, coverage is the
average of key-count/10 and nesting-depth/5, each independently capped at 1.0
before averaging. -/
def coverage_spec_mapping (key_count depth : ℕ) : ℚ :=
  (min 1 ((key_count : ℚ) / 10) + min 1 ((depth : ℚ) / 5)) / 2

/-- Modelled from the spec (§4.6): a value counting as null/empty — null,
empty string, or empty container (either kind). -/
def isNullEmptySpec : Json → Bool
  | .null => true
  | .str [] => true
  | .arr [] => true
  | .obj [] => true
  | _ => false

mutual

/-- Modelled from the spec (§4.6): the recursive null/empty count, where an
empty container of either kind counts, recursing into nested mappings and
sequences. -/
def count_nulls_spec : Json → ℕ
  | .null => 1
  | .obj kvs => count_nulls_spec_obj kvs
  | .arr items => count_nulls_spec_arr items
  | _ => 0

def count_nulls_spec_obj : List (List Char × Json) → ℕ
  | [] => 0
  | (_, v) :: rest =>
    (if isNullEmptySpec v then 1
     else if isContainer v then count_nulls_spec v else 0) + count_nulls_spec_obj rest

def count_nulls_spec_arr : List Json → ℕ
  | [] => 0
  | item :: rest =>
    (if isNullEmptySpec item then 1
     else if isContainer item then count_nulls_spec item else 0) + count_nulls_spec_arr rest

end

/-! ## Claim theorems -/

/-- C1.  For every input string and every format category, each of the five
dimension scorers returns a score in [0, 1]; and whenever `score_submission`
returns a result (format detection did not raise), its `weighted_score` lies
in [0, 1]. -/
theorem dimension_scores_and_weighted_score_in_unit :
    (∀ content fmt,
      inUnit (score_completeness content fmt).1 ∧
      inUnit (score_format_compliance content fmt).1 ∧
      inUnit (score_coverage content fmt).1 ∧
      inUnit (score_clarity content fmt).1 ∧
      inUnit (score_validity content fmt).1) ∧
    ∀ content threshold, weightedScoreInUnit (score_submission content threshold) := by
  constructor
  · intro content fmt
    exact ⟨score_completeness_unit content fmt, score_format_compliance_unit content fmt,
      score_coverage_unit content fmt, score_clarity_unit content fmt,
      score_validity_unit content fmt⟩
  · intro content threshold
    rcases hd : detect_format content with e | fmt
    · simp only [score_submission, hd, weightedScoreInUnit]
    · simp only [score_submission, hd, weightedScoreInUnit]
      exact aggregate_weighted_unit content fmt threshold

/-- The ten-key flat mapping used to separate the implemented coverage
formula from the formula of the spec. -/
def c2_input : String :=
  "\x7b\"a\":1,\"b\":2,\"c\":3,\"d\":4,\"e\":5,\"f\":6,\"g\":7,\"h\":8,\"i\":9,\"j\":10\x7d"

def c2_fields : List (List Char × Json) :=
  [("a".data, Json.num "1".data), ("b".data, Json.num "2".data),
   ("c".data, Json.num "3".data), ("d".data, Json.num "4".data),
   ("e".data, Json.num "5".data), ("f".data, Json.num "6".data),
   ("g".data, Json.num "7".data), ("h".data, Json.num "8".data),
   ("i".data, Json.num "9".data), ("j".data, Json.num "10".data)]

/-- C2 (counterexample).  A ten-key flat mapping is classified Structured,
has key count 10 and depth 1; the code scores coverage
`min(1, 10/10 + 1/5) / 2 = 0.5`, while the average of independently
capped ratios prescribed by the spec is `(1 + 0.2) / 2 = 0.6`. -/
theorem coverage_capped_average_counterexample :
    detect_format c2_input = Except.ok FormatType.JSON ∧
    json_loads c2_input = some (Json.obj c2_fields) ∧
    c2_fields.length = 10 ∧
    get_dict_depth (Json.obj c2_fields) 0 = 1 ∧
    (score_coverage c2_input FormatType.JSON).1 = 1 / 2 ∧
    coverage_spec_mapping 10 1 = 3 / 5 ∧
    (1 : ℚ) / 2 ≠ 3 / 5 := by
  refine ⟨rfl, rfl, rfl, rfl, ?_, ?_, by norm_num⟩
  · have hp : json_loads c2_input = some (Json.obj c2_fields) := rfl
    have hl : c2_fields.length = 10 := rfl
    have hd : get_dict_depth (Json.obj c2_fields) 0 = 1 := rfl
    simp only [score_coverage, hp, hl, hd]
    norm_num [pyRound3, round_half_to_even]
  · norm_num [coverage_spec_mapping]

/-- C2 (amended).  For every input classified Structured whose payload is a
top-level mapping, the coverage score is the SUM of key-count/10 and depth/5,
capped at 1.0 after adding, then halved (and rounded to three decimals) —
not the average of independently capped ratios. -/
theorem coverage_mapping_sum_capped_then_halved (content : String)
    (fields : List (List Char × Json))
    (_hdet : detect_format content = Except.ok FormatType.JSON)
    (hparse : json_loads content = some (Json.obj fields)) :
    (score_coverage content FormatType.JSON).1 =
      pyRound3 (min 1 ((fields.length : ℚ) / 10 +
        (get_dict_depth (Json.obj fields) 0 : ℚ) / 5) / 2) := by
  simp only [score_coverage, hparse]

theorem coverage_mapping_sum_capped_then_halved_witness :
    (score_coverage "\x7b\"x\":1\x7d" FormatType.JSON).1 =
      pyRound3 (min 1 (([("x".data, Json.num "1".data)].length : ℚ) / 10 +
        (get_dict_depth (Json.obj [("x".data, Json.num "1".data)]) 0 : ℚ) / 5) / 2) :=
  coverage_mapping_sum_capped_then_halved "\x7b\"x\":1\x7d"
    [("x".data, Json.num "1".data)] rfl rfl

/-- C3.  On the own test input of the code module `def hello():\n    pass` —
which the claim says the code-signal patterns classify as Code — `detect_format`
instead raises `re.error`: its first code pattern contains an unterminated
group, and `re.match` fails while compiling it. -/
theorem detect_format_raises_on_code_keyword_input :
    detect_format "def hello():\n    pass" =
      Except.error RegexError.unterminatedSubpattern := rfl

/-- The complete-fields scenario input of the spec (§8). -/
def c4_input : String :=
  "\x7b\"id\":\"1\",\"name\":\"Test\",\"value\":100,\"type\":\"example\",\"data\":\x7b\x7d\x7d"

/-- C4 (counterexample).  Scoring the complete-fields scenario input yields
`format_detected = "json"`, not the label `"structured"` prescribed by the
serialization section of the spec. -/
theorem format_detected_is_json_not_structured :
    (score_submission c4_input DEFAULT_PASS_THRESHOLD).map
        (fun r => r.format_detected) = Except.ok "json" ∧
    "json" ≠ "structured" := by
  exact ⟨rfl, by decide⟩

/-- C4 (amended).  Scoring the complete-fields scenario input yields a result
whose `format_detected` field is `"json"` (the serialized enumeration label)
and whose completeness dimension entry — the first entry of `scores` — is 1.0,
because all five canonical fields are present. -/
theorem scenario_full_fields_json_completeness_one :
    (score_submission c4_input DEFAULT_PASS_THRESHOLD).map
        (fun r => r.format_detected) = Except.ok "json" ∧
    (score_submission c4_input DEFAULT_PASS_THRESHOLD).map
        (fun r => r.scores.head?) = Except.ok (some ("completeness", (1 : ℚ))) := by
  constructor
  · rfl
  · have hd : detect_format c4_input = Except.ok FormatType.JSON := rfl
    have hp : json_loads c4_input = some (Json.obj
        [("id".data, Json.str "1".data), ("name".data, Json.str "Test".data),
         ("value".data, Json.num "100".data), ("type".data, Json.str "example".data),
         ("data".data, Json.obj [])]) := rfl
    have hf : (List.filter (fun f => objHasKey
        [("id".data, Json.str "1".data), ("name".data, Json.str "Test".data),
         ("value".data, Json.num "100".data), ("type".data, Json.str "example".data),
         ("data".data, Json.obj [])] f.data)
        ["id", "name", "data", "value", "type"]).length = 5 := rfl
    have hc : (score_completeness c4_input FormatType.JSON).1 = 1 := by
      simp only [score_completeness, hp, hf]
      norm_num [pyRound3, round_half_to_even]
    simp only [score_submission, hd, Except.map, aggregate_result, List.head?, hc]

/-- C5.  An input whose trimmed text starts with a brace but fails the
structured parse is indeed not classified Structured and not immediately
classified PlainText — but instead of reaching the code/markup heuristics it
raises `re.error` on the first (malformed) code pattern. -/
theorem detect_format_raises_on_failed_json_prefix :
    detect_format "\x7bnot json" =
      Except.error RegexError.unterminatedSubpattern := rfl

/-- The value parsed from the C6 counterexample input: a mapping whose only
value is an empty mapping. -/
def c6_value : Json := Json.obj [("a".data, Json.obj [])]

/-- C6 (counterexample).  On input with one empty-mapping value, the count
in the code is 0 (empty mappings are recursed into, not counted) and validity is
1.0; the rule of the spec, "each null/empty-valued field, empty container included"
counts 1 and yields 0.9. -/
theorem validity_empty_mapping_value_counterexample :
    detect_format "\x7b\"a\": \x7b\x7d\x7d" = Except.ok FormatType.JSON ∧
    json_loads "\x7b\"a\": \x7b\x7d\x7d" = some c6_value ∧
    count_nulls c6_value = 0 ∧
    count_nulls_spec c6_value = 1 ∧
    (score_validity "\x7b\"a\": \x7b\x7d\x7d" FormatType.JSON).1 = 1 ∧
    pyRound3 (max 0 (1 - 0.1 * ((min (count_nulls_spec c6_value) 5 : ℕ) : ℚ))) = 9 / 10 ∧
    (1 : ℚ) ≠ 9 / 10 := by
  refine ⟨rfl, rfl, rfl, rfl, ?_, ?_, by norm_num⟩
  · have hp : json_loads "\x7b\"a\": \x7b\x7d\x7d" = some c6_value := rfl
    have hc : count_nulls c6_value = 0 := rfl
    simp only [score_validity, hp, hc]
    norm_num [pyRound3, round_half_to_even]
  · have hs : count_nulls_spec c6_value = 1 := rfl
    rw [hs]
    norm_num [pyRound3, round_half_to_even]

/-- C6 (amended).  For every input classified Structured that parses, the
validity score is 1.0 minus 0.1 per counted null/empty value, capped at five
occurrences — where the count walks mappings counting null/empty-string/
empty-sequence values and sequences counting null/empty-string/empty-mapping
items, recursing into the remaining containers (so an empty mapping value and
an empty sequence item contribute nothing). -/
theorem validity_formula_from_count_nulls (content : String) (v : Json)
    (_hdet : detect_format content = Except.ok FormatType.JSON)
    (hparse : json_loads content = some v) :
    (score_validity content FormatType.JSON).1 =
      pyRound3 (max 0 (1 - 0.1 * ((min (count_nulls v) 5 : ℕ) : ℚ))) := by
  simp only [score_validity, hparse]
  by_cases h : 0 < count_nulls v
  · simp only [if_pos h]
  · have h0 : count_nulls v = 0 := by omega
    simp only [if_neg h, h0]
    norm_num

theorem validity_formula_from_count_nulls_witness :
    (score_validity "[null]" FormatType.JSON).1 =
      pyRound3 (max 0 (1 - 0.1 * ((min (count_nulls (Json.arr [Json.null])) 5 : ℕ) : ℚ))) :=
  validity_formula_from_count_nulls "[null]" (Json.arr [Json.null]) rfl rfl

/-- C7.  The empty-string scenario of the spec: `score_submission("")` does not
complete — format detection reaches the malformed first code pattern and
raises `re.error` instead of returning a result. -/
theorem score_submission_raises_on_empty_string :
    score_submission "" DEFAULT_PASS_THRESHOLD =
      Except.error RegexError.unterminatedSubpattern := rfl

/-- Tier position of each quality label in the fixed rating table, lowest
tier first. -/
def ratingRank : String → ℕ
  | "Poor" => 0
  | "Needs Improvement" => 1
  | "Satisfactory" => 2
  | "Good" => 3
  | "Very Good" => 4
  | "Excellent" => 5
  | _ => 0

/-- C8.  The quality rating is monotone: a lower score never receives a
strictly higher tier than a higher score. -/
theorem quality_rating_monotone (s1 s2 : ℚ) (h : s1 ≤ s2) :
    ratingRank (get_quality_rating s1) ≤ ratingRank (get_quality_rating s2) := by
  simp only [get_quality_rating, QUALITY_RATINGS, ratingScan]
  split_ifs <;> first
    | decide
    | (exfalso; linarith)

theorem quality_rating_monotone_witness :
    ratingRank (get_quality_rating (3 / 10)) ≤ ratingRank (get_quality_rating (7 / 10)) :=
  quality_rating_monotone (3 / 10) (7 / 10) (by norm_num)

/-- C9.  The batch scenario of the spec `score_many(["a","b","c"])` does not
return three results: the first item already raises `re.error` inside format
detection, aborting the whole batch. -/
theorem score_batch_raises_on_plain_text_items :
    score_batch ["a", "b", "c"] DEFAULT_PASS_THRESHOLD =
      Except.error RegexError.unterminatedSubpattern := rfl

/-- C10.  For every input classified Structured whose payload is a top-level
mapping, the coverage score is at most 0.5, however many keys and however
deep the nesting: the implemented formula halves a quantity capped at 1. -/
theorem coverage_of_mapping_at_most_half (content : String)
    (fields : List (List Char × Json))
    (_hdet : detect_format content = Except.ok FormatType.JSON)
    (hparse : json_loads content = some (Json.obj fields)) :
    (score_coverage content FormatType.JSON).1 ≤ 1 / 2 := by
  simp only [score_coverage, hparse]
  have hm := min_le_left 1 ((fields.length : ℚ) / 10 +
    (get_dict_depth (Json.obj fields) 0 : ℚ) / 5)
  have h5 : min 1 ((fields.length : ℚ) / 10 +
      (get_dict_depth (Json.obj fields) 0 : ℚ) / 5) / 2 ≤ ((500 : ℤ) : ℚ) / 1000 := by
    push_cast
    linarith
  have := pyRound3_le h5
  push_cast at this
  linarith

theorem coverage_of_mapping_at_most_half_witness :
    (score_coverage "\x7b\"k\":true\x7d" FormatType.JSON).1 ≤ 1 / 2 :=
  coverage_of_mapping_at_most_half "\x7b\"k\":true\x7d"
    [("k".data, Json.bool true)] rfl rfl

end QualityScorer
